import Mathlib

/-!
Verification development for the video generation / processing service.

The source is embedded shallowly:
* the Redis task registry (`src/was/app/db.py`, used by `video.py` / `video2.py`)
  is an association list of string keys to string values; `SETEX` is modelled
  as a prepending write (last writer wins on lookup) and expiry is modelled as
  absence of the key;
* the route handlers `generate_video`, `get_status`, `video_callback`
  (`src/was/app/video.py`) and their `video2.py` twins are pure functions of
  the parsed request payload, the registry state, and an oracle of
  success/failure bits for the external effects (HTTP download, ffmpeg,
  S3 uploads, DB writes, queue push, operation log);
* the worker loop body `process_job` (`src/worker/src/worker.py`) is a pure
  function of the queue message and an oracle for its external steps;
* the S3 key scheme and listing logic (`src/was/app/s3_client.py`) are
  modelled on `List Char` (Python strings are modelled by their character
  lists), with `str.replace`, `str.endswith`, `str.rsplit` and
  `str.split("/")[-1]` translated character by character.

Python truthiness on optional strings (`if not task_id`) is modelled by
`truthy`, which is false exactly on `none` and `some ""`.
-/

namespace VideoService

/-! ## Redis-backed task registry -/

/-- Redis string store: key/value pairs, most recent write first. -/
abbrev Store := List (String × String)

/-- Model of `redis_client.get`: value of the most recent write to `k`. -/
def rget (st : Store) (k : String) : Option String :=
  match st.find? (fun p => p.1 == k) with
  | some p => some p.2
  | none => none

/-- Model of `redis_client.set(k, v, ex=86400)`: prepend the write. -/
def rset (st : Store) (k v : String) : Store := (k, v) :: st

/-- Python truthiness of an optional string: `None` and `""` are falsy. -/
def truthy : Option String → Bool
  | none => false
  | some s => !(s == "")

/-- Registry key `f"task_user:{task_id}"` (video.py line 85). -/
def userKey (task_id : String) : String := "task_user:" ++ task_id

/-- Registry key `f"task_prompt:{task_id}"` (video.py line 86). -/
def promptKey (task_id : String) : String := "task_prompt:" ++ task_id

/-- Registry key `f"task_status:{task_id}"` (video.py line 87). -/
def statusKey (task_id : String) : String := "task_status:" ++ task_id

/-! ## Generation requester (video.py lines 54-89, video2.py lines 57-98) -/

/-- The JSON body returned by the upstream generation service, as far as id
extraction is concerned: it may carry a task id nested under `data`
(`data.taskId`) and/or a top-level `taskId`. The source reads only the
nested field. -/
structure GenResponse where
  dataTaskId : Option String
  topTaskId : Option String
deriving DecidableEq

/-- Outcome of a successful generation request. `writes` is the sequence of
`task_status` values written to the registry, in order. -/
structure GenResult where
  store : Store
  writes : List String
  taskId : String
deriving DecidableEq

/-- `generate_video` (video.py lines 80-89), from the point where the upstream
response body has been received and parsed: extract `data.get("data", {})
.get("taskId")`, fail with HTTP 502 if falsy, otherwise create the registry
entry (owner, prompt, status=QUEUED) and return the task id. -/
def generate_video (resp : GenResponse) (user_id prompt : String) (st : Store) :
    Except String GenResult :=
  if !(truthy resp.dataTaskId) then .error "KIE did not return taskId"
  else
    let tid := resp.dataTaskId.getD ""
    let st1 := rset st (userKey tid) user_id
    let st2 := rset st1 (promptKey tid) prompt
    let st3 := rset st2 (statusKey tid) "QUEUED"
    .ok ⟨st3, ["QUEUED"], tid⟩

/-- `generate_video_v2` (video2.py lines 89-98): identical id extraction and
registry writes; only the outbound payload (not modelled here) differs. -/
def generate_video_v2 (resp : GenResponse) (user_id prompt : String) (st : Store) :
    Except String GenResult :=
  if !(truthy resp.dataTaskId) then .error "KIE V2 did not return taskId"
  else
    let tid := resp.dataTaskId.getD ""
    let st1 := rset st (userKey tid) user_id
    let st2 := rset st1 (promptKey tid) prompt
    let st3 := rset st2 (statusKey tid) "QUEUED"
    .ok ⟨st3, ["QUEUED"], tid⟩

/-! ## Status query (video.py lines 94-106, video2.py lines 103-114) -/

/-- Response of the status route: either a JSON body `{task_id, status}` or
an HTTP 403. The 403 carries no status information. -/
inductive StatusResp where
  | body (task_id status : String)
  | forbidden
deriving DecidableEq

/-- `get_status` (video.py lines 94-106): `owner = get(task_user:id)`;
falsy owner means NOT_FOUND; a different owner means HTTP 403; otherwise
return `get(task_status:id) or "UNKNOWN"`. -/
def get_status (task_id user_id : String) (st : Store) : StatusResp :=
  match rget st (userKey task_id) with
  | none => .body task_id "NOT_FOUND"
  | some owner =>
    if owner == "" then .body task_id "NOT_FOUND"
    else if owner != user_id then .forbidden
    else
      match rget st (statusKey task_id) with
      | none => .body task_id "UNKNOWN"
      | some s => .body task_id (if s == "" then "UNKNOWN" else s)

/-- `get_status_v2` (video2.py lines 103-114): identical body. -/
def get_status_v2 (task_id user_id : String) (st : Store) : StatusResp :=
  match rget st (userKey task_id) with
  | none => .body task_id "NOT_FOUND"
  | some owner =>
    if owner == "" then .body task_id "NOT_FOUND"
    else if owner != user_id then .forbidden
    else
      match rget st (statusKey task_id) with
      | none => .body task_id "UNKNOWN"
      | some s => .body task_id (if s == "" then "UNKNOWN" else s)

/-! ## Callback payload and handlers (video.py lines 111-196, video2.py 119-208) -/

/-- The `data.info` object of an inbound callback. `resultUrls = none` models
an absent field; `some l` models a present JSON array whose elements may be
`null` (`none`). -/
structure CallbackInfo where
  resultUrls : Option (List (Option String))
deriving DecidableEq

/-- The `data` object of an inbound callback payload. -/
structure CallbackData where
  taskId : Option String
  info : Option CallbackInfo
  videoUrl : Option String
deriving DecidableEq

/-- An inbound callback payload `{ "data": ... }`. -/
structure CallbackPayload where
  data : Option CallbackData
deriving DecidableEq

/-- `payload.get("data", {})`. -/
def cbData (p : CallbackPayload) : CallbackData :=
  p.data.getD ⟨none, none, none⟩

/-- The task id the handler will use: `data.get("taskId")`, with `""` for the
purposes of key construction when absent (the handler never reaches key
construction in that case). -/
def tidOf (p : CallbackPayload) : String := (cbData p).taskId.getD ""

/-- `data.get("info", {}).get("resultUrls", [None])[0]` (video.py line 117).
When `resultUrls` is present but an empty JSON array, `[0]` raises
`IndexError`, modelled as `.error ()` (the route then returns HTTP 500). -/
def firstResultUrl (d : CallbackData) : Except Unit (Option String) :=
  match d.info with
  | none => .ok none
  | some i =>
    match i.resultUrls with
    | none => .ok none
    | some [] => .error ()
    | some (u :: _) => .ok u

/-- URL extraction of `video2_callback` (video2.py lines 130-132): the
primary shape, then `data.get("videoUrl")` if the primary value is falsy. -/
def video2Url (d : CallbackData) : Except Unit (Option String) :=
  match firstResultUrl d with
  | .error e => .error e
  | .ok u => .ok (if truthy u then u else d.videoUrl)

/-- Success bits for the callback handler's external steps, in source order:
asset download (video.py line 138), ffmpeg thumbnail (line 144), S3 video
upload (line 150), S3 thumbnail upload (line 151), `insert_final_video`
(line 154), `lpush` of the job (line 167), `insert_operation_log`
(lines 169 and 183 — one health bit for the log collaborator). -/
structure CallbackOracle where
  downloadOk : Bool
  thumbOk : Bool
  uploadVideoOk : Bool
  uploadThumbOk : Bool
  insertVideoOk : Bool
  enqueueOk : Bool
  logOk : Bool
deriving DecidableEq

/-- All of steps 4-9 succeed (the handler reaches the COMPLETED write). -/
def cbStepsOk (o : CallbackOracle) : Bool :=
  o.downloadOk && o.thumbOk && o.uploadVideoOk && o.uploadThumbOk &&
    o.insertVideoOk && o.enqueueOk && o.logOk

/-- All steps up to and including the queue push succeed (the job got
enqueued even if a later step failed). -/
def cbStepsThroughEnqueueOk (o : CallbackOracle) : Bool :=
  o.downloadOk && o.thumbOk && o.uploadVideoOk && o.uploadThumbOk &&
    o.insertVideoOk && o.enqueueOk

/-- A queued job description as pushed by the handlers (video.py lines
162-166, video2.py lines 174-177). -/
structure Job where
  input_key : String
  output_key : String
  variant : Option String
deriving DecidableEq

/-- Observable outcome of one callback-handler invocation. `writes` is the
ordered list of values written to `task_status:{id}`; `logs` the
operation-log entries recorded as (log type, status); `tmpCreated` whether
the two temporary files were created; `tmpVideoLeft`/`tmpThumbLeft` whether
they still exist after the handler returns. -/
structure CbResult where
  store : Store
  msg : String
  jobs : List Job
  writes : List String
  logs : List (String × String)
  tmpCreated : Bool
  tmpVideoLeft : Bool
  tmpThumbLeft : Bool
deriving DecidableEq

/-- `video_callback` (video.py lines 111-196). Control flow mirrors the
source: extract id and URL (IndexError on a present-but-empty `resultUrls`
propagates as `.error`); falsy id or URL returns the `waiting`
acknowledgement untouched; otherwise write PROCESSING, look the owner up,
write FAILED and acknowledge when the owner is falsy. Otherwise steps 4-9
run inside the `try`, but step 6 calls
`upload_video(user_id, task_id, tmp_video, processed=False)` (line 150)
while `s3_client.upload_video` is declared
`(user_id, task_id, file_path, variant=None)` — there is no `processed`
parameter, so this call raises `TypeError` unconditionally. The handler
therefore always lands in the `except` block on this path (after the
download/thumbnail steps, which may themselves have raised first — the
observable outcome is the same): status FAILED, a best-effort FAILED log
entry (swallowed if the log collaborator is down), the success
acknowledgement, and no job ever pushed; the job `lpush` (line 167) and
the COMPLETED write (line 177) are unreachable. The `finally` block always
removes both temporary files. The DB metadata content (title, description)
has no observable effect on the claims and is not tracked. -/
def video_callback (p : CallbackPayload) (st : Store) (orc : CallbackOracle) :
    Except Unit CbResult :=
  match firstResultUrl (cbData p) with
  | .error _ => .error ()
  | .ok video_url =>
    if !(truthy (cbData p).taskId) || !(truthy video_url) then
      .ok ⟨st, "waiting", [], [], [], false, false, false⟩
    else
      let tid := tidOf p
      let st1 := rset st (statusKey tid) "PROCESSING"
      let user := rget st1 (userKey tid)
      if !(truthy user) then
        .ok ⟨rset st1 (statusKey tid) "FAILED", "User mapping not found",
             [], ["PROCESSING", "FAILED"], [], false, false, false⟩
      else
        .ok ⟨rset st1 (statusKey tid) "FAILED", "success", [],
             ["PROCESSING", "FAILED"],
             (if orc.logOk then [("VIDEO_GENERATE", "FAILED")] else []),
             true, false, false⟩

/-- `video2_callback` (video2.py lines 119-208): same structure as
`video_callback` except the URL extraction falls back to `data.videoUrl`,
the enqueued job carries no `variant` field, and the log type is
`VIDEO_GENERATE_V2`. -/
def video2_callback (p : CallbackPayload) (st : Store) (orc : CallbackOracle) :
    Except Unit CbResult :=
  match video2Url (cbData p) with
  | .error _ => .error ()
  | .ok video_url =>
    if !(truthy (cbData p).taskId) || !(truthy video_url) then
      .ok ⟨st, "waiting", [], [], [], false, false, false⟩
    else
      let tid := tidOf p
      let st1 := rset st (statusKey tid) "PROCESSING"
      let user := rget st1 (userKey tid)
      if !(truthy user) then
        .ok ⟨rset st1 (statusKey tid) "FAILED", "User mapping not found",
             [], ["PROCESSING", "FAILED"], [], false, false, false⟩
      else
        let uid := user.getD ""
        let job : Job := ⟨uid ++ "/" ++ tid ++ ".mp4",
                          uid ++ "/" ++ tid ++ "_processed.mp4", none⟩
        if cbStepsOk orc then
          .ok ⟨rset st1 (statusKey tid) "COMPLETED", "success", [job],
               ["PROCESSING", "COMPLETED"], [("VIDEO_GENERATE_V2", "SUCCESS")],
               true, false, false⟩
        else
          .ok ⟨rset st1 (statusKey tid) "FAILED", "success",
               (if cbStepsThroughEnqueueOk orc then [job] else []),
               ["PROCESSING", "FAILED"],
               (if orc.logOk then [("VIDEO_GENERATE_V2", "FAILED")] else []),
               true, false, false⟩

/-! ## Worker pipeline (src/worker/src/worker.py lines 93-156) -/

/-- A parsed queue message (wire format `{input_key, output_key, variant?}`). -/
structure WorkerJobMsg where
  input_key : String
  output_key : String
  variant : Option String
deriving DecidableEq

/-- Success bits / outputs of the worker's external steps: S3 download
(worker.py line 104), the caption subprocess stdout after `.strip()`
(`none` when the subprocess failed or timed out, line 116-125), the ffmpeg
script (line 134), and the S3 upload (line 147). -/
structure WorkerOracle where
  downloadOk : Bool
  captionOut : Option String
  ffmpegOk : Bool
  uploadOk : Bool
deriving DecidableEq

/-- Observable outcome of `process_job`: the variant value used, the caption
burnt in, the S3 keys uploaded, the variants for which a rendering was made
available at `output_key`, and temporary-file bookkeeping. -/
structure WorkerResult where
  variantUsed : String
  caption : String
  uploads : List String
  variantsProduced : List String
  tmpCreated : Bool
  tmpLeft : Bool
deriving DecidableEq

/-- Fallback caption `"편집된 영상입니다"` (worker.py line 128). -/
def WORKER_DEFAULT_CAPTION : String := "편집된 영상입니다"

/-- `process_job` (worker.py lines 93-156): `variant = job.get("variant",
"v1")`; download, caption (failures downgrade to the default caption),
ffmpeg, upload; any non-caption failure abandons the job; temporary files
are removed in the `finally` block on every path. -/
def process_job (j : WorkerJobMsg) (orc : WorkerOracle) : WorkerResult :=
  let variant := j.variant.getD "v1"
  if !orc.downloadOk then ⟨variant, "", [], [], true, false⟩
  else
    let captionRaw := orc.captionOut.getD ""
    let caption := if captionRaw == "" then WORKER_DEFAULT_CAPTION else captionRaw
    if !orc.ffmpegOk then ⟨variant, caption, [], [], true, false⟩
    else if !orc.uploadOk then ⟨variant, caption, [], [], true, false⟩
    else ⟨variant, caption, [j.output_key], [variant], true, false⟩

/-- The configured caption prompt table `PROMPTS` of
`src/worker/src/generate_caption.py` (lines 17-31): one prompt per
configured variant. -/
def PROMPTS : List (String × String) :=
  [("v1", "이 이미지를 보고 영상 썸네일에 쓸 짧은 한국어 제목을 만들어라. 최대 15자. 설명 금지. 문장부호 금지."),
   ("v2", "이 이미지를 보고 쇼츠 영상에 어울리는 강렬하고 눈에 띄는 한국어 제목을 만들어라. 반드시 순수 한글만 사용하라. 이모지, 특수문자, 전각문자, 영어, 숫자 절대 사용 금지. 공백은 허용한다. 최대 15자. 설명 금지. 문장부호 금지.")]

/-- The configured variant set: the keys of `PROMPTS`, i.e. `v1` and `v2`. -/
def configuredVariants : List String := PROMPTS.map Prod.fst

/-! ## S3 key scheme and listing (src/was/app/s3_client.py)

Strings are modelled by their character lists; each helper below translates
one Python string operation used by `upload_video` / `list_user_videos`. -/

/-- The characters of the extension `".mp4"`. -/
def mp4Chars : List Char := ['.', 'm', 'p', '4']

/-- `upload_video` key construction (s3_client.py lines 25-26):
`f"{task_id}_{variant}.mp4" if variant else f"{task_id}.mp4"`, prefixed by
`f"{user_id}/"`. -/
def videoKey (user_id task_id : List Char) (variant : Option (List Char)) :
    List Char :=
  match variant with
  | some v => user_id ++ ['/'] ++ task_id ++ ['_'] ++ v ++ mp4Chars
  | none => user_id ++ ['/'] ++ task_id ++ mp4Chars

/-- `key.split("/")[-1]` (s3_client.py line 100): the part after the last
slash (the whole string when there is no slash). -/
def lastSegment (key : List Char) : List Char :=
  ((key.reverse).takeWhile (fun c => !(c == '/'))).reverse

/-- The part of a key before its last slash, i.e. the owner part of a key
`owner ++ "/" ++ filename` with a slash-free filename. -/
def ownerOfKey (key : List Char) : List Char :=
  (((key.reverse).dropWhile (fun c => !(c == '/'))).drop 1).reverse

/-- `filename.endswith(".mp4")` (s3_client.py line 102). -/
def endsWithMp4 (s : List Char) : Bool :=
  match s.reverse with
  | '4' :: 'p' :: 'm' :: '.' :: _ => true
  | _ => false

/-- Whether a window starting here matches `".mp4"`: used to model Python's
left-to-right scan of `str.replace(".mp4", "")`. -/
def hasMp4 : List Char → Bool
  | c1 :: c2 :: c3 :: c4 :: rest =>
    (c1 == '.' && c2 == 'm' && c3 == 'p' && c4 == '4') ||
      hasMp4 (c2 :: c3 :: c4 :: rest)
  | _ => false

/-- `filename.replace(".mp4", "")` (s3_client.py line 103): remove every
(non-overlapping, left-to-right) occurrence of `".mp4"`. -/
def stripMp4All : List Char → List Char
  | c1 :: c2 :: c3 :: c4 :: rest =>
    if c1 == '.' && c2 == 'm' && c3 == 'p' && c4 == '4' then stripMp4All rest
    else c1 :: stripMp4All (c2 :: c3 :: c4 :: rest)
  | s => s

/-- `base.endswith("_" + "v" + last)` for a one-character variant digit:
`endsWith3 '_' 'v' '1' s` models `s.endswith("_v1")`. -/
def endsWith3 (a b c : Char) (s : List Char) : Bool :=
  match s.reverse with
  | z :: y :: x :: _ => x == a && y == b && z == c
  | _ => false

/-- `base.rsplit("_", 1)[0]` (s3_client.py line 107): the part before the
last underscore, or the whole string when there is none. -/
def rsplitUnderscoreHead (s : List Char) : List Char :=
  match (s.reverse).dropWhile (fun c => !(c == '_')) with
  | [] => s
  | _ :: before => before.reverse

/-- The task id the listing logic assigns to a stripped base name
(s3_client.py lines 106-109): strip a `_v1`/`_v2` suffix, otherwise keep
the base as its own task id. -/
def taskIdOfBase (base : List Char) : List Char :=
  if endsWith3 '_' 'v' '1' base || endsWith3 '_' 'v' '2' base then
    rsplitUnderscoreHead base
  else base

/-- The logical task id the listing logic recovers from a full key. -/
def taskIdOfKey (key : List Char) : List Char :=
  taskIdOfBase (stripMp4All (lastSegment key))

/-- The variant the listing logic's suffix test recovers from a full key:
`some "v1"`/`some "v2"` for the two recognised suffixes, `none` otherwise. -/
def variantOfKey (key : List Char) : Option (List Char) :=
  let base := stripMp4All (lastSegment key)
  if endsWith3 '_' 'v' '1' base then some ['v', '1']
  else if endsWith3 '_' 'v' '2' base then some ['v', '2']
  else none

/-- Whether `pre` is an initial run of `s` (models the S3 `Prefix=` filter of
`list_objects_v2`, s3_client.py lines 90-92). -/
def leadsWith : List Char → List Char → Bool
  | [], _ => true
  | _ :: _, [] => false
  | a :: as, b :: bs => a == b && leadsWith as bs

/-- Lexicographic comparison of character lists by code point, as Python
compares strings. -/
def lexLt : List Char → List Char → Bool
  | _, [] => false
  | [], _ :: _ => true
  | a :: as, b :: bs => if a == b then lexLt as bs else decide (a < b)

/-- Insert into a descending-sorted list (for `sorted(tasks, reverse=True)`,
s3_client.py line 114). -/
def insertDesc (x : List Char) : List (List Char) → List (List Char)
  | [] => [x]
  | y :: ys => if lexLt x y then y :: insertDesc x ys else x :: y :: ys

/-- `sorted(l, reverse=True)` on character lists. -/
def sortDesc (l : List (List Char)) : List (List Char) := l.foldr insertDesc []

/-- `list_user_videos` (s3_client.py lines 84-118) over a given list of
bucket keys: keep keys under `f"{user_id}/"`, keep `.mp4` filenames, strip
the extension, group `_v1`/`_v2` under their base task id, deduplicate
(the Python `set`), and sort descending. -/
def list_user_videos (user_id : List Char) (keys : List (List Char)) :
    List (List Char) :=
  let tasks := keys.foldl (fun acc key =>
    if leadsWith (user_id ++ ['/']) key then
      let filename := lastSegment key
      if endsWithMp4 filename then
        let t := taskIdOfBase (stripMp4All filename)
        if acc.contains t then acc else acc ++ [t]
      else acc
    else acc) []
  sortDesc tasks

/-! ## Status-transition bookkeeping -/

/-- COMPLETED and FAILED are the terminal statuses (spec section 3). -/
def isTerminalStatus (s : String) : Bool := s == "COMPLETED" || s == "FAILED"

/-- A sequence of status writes never steps from a terminal status to a
non-terminal one. -/
def noTerminalRegression : List String → Bool
  | a :: b :: rest =>
    (!(isTerminalStatus a) || isTerminalStatus b) && noTerminalRegression (b :: rest)
  | _ => true

/-! ## Shared concrete scenario (spec section 8 end-to-end example) -/

/-- Upstream response carrying the task id `abc123` nested under `data`. -/
def demoGenResp : GenResponse := ⟨some "abc123", none⟩

/-- Completion callback for `abc123` in the primary shape. -/
def demoPayload : CallbackPayload :=
  ⟨some ⟨some "abc123", some ⟨some [some "http://x/video.mp4"]⟩, none⟩⟩

/-- Oracle in which every external step succeeds. -/
def allOk : CallbackOracle := ⟨true, true, true, true, true, true, true⟩

/-- Projections out of handler results, with inert defaults on the error
branch. -/
def genStoreOf : Except String GenResult → Store
  | .ok g => g.store
  | .error _ => []

def genWritesOf : Except String GenResult → List String
  | .ok g => g.writes
  | .error _ => []

def cbStoreOf : Except Unit CbResult → Store
  | .ok r => r.store
  | .error _ => []

def cbWritesOf : Except Unit CbResult → List String
  | .ok r => r.writes
  | .error _ => []

def cbJobsOf : Except Unit CbResult → List Job
  | .ok r => r.jobs
  | .error _ => []

/-- Registry after the demo generation request. -/
def demoStore1 : Store := genStoreOf (generate_video demoGenResp "u1" "sunset" [])

/-- First delivery of the completion callback. -/
def demoCb1 : Except Unit CbResult := video_callback demoPayload demoStore1 allOk

/-- Duplicate delivery of the same completion callback. -/
def demoCb2 : Except Unit CbResult :=
  video_callback demoPayload (cbStoreOf demoCb1) allOk

/-- The full sequence of `task_status` writes in the v1 demo scenario:
creation, first delivery, duplicate delivery (every v1 delivery fails at
the upload step's `TypeError`, so the terminal status is FAILED each
time). -/
def demoTrace : List String :=
  genWritesOf (generate_video demoGenResp "u1" "sunset" []) ++
    cbWritesOf demoCb1 ++ cbWritesOf demoCb2

/-- Registry after the demo generation request on the v2 route. -/
def demoStore2 : Store :=
  genStoreOf (generate_video_v2 demoGenResp "u1" "sunset" [])

/-- First delivery of the completion callback to the v2 handler. -/
def demo2Cb1 : Except Unit CbResult := video2_callback demoPayload demoStore2 allOk

/-- Duplicate delivery of the same completion callback to the v2 handler. -/
def demo2Cb2 : Except Unit CbResult :=
  video2_callback demoPayload (cbStoreOf demo2Cb1) allOk

/-- The full sequence of `task_status` writes in the v2 demo scenario:
creation, first delivery, duplicate delivery. -/
def demo2Trace : List String :=
  genWritesOf (generate_video_v2 demoGenResp "u1" "sunset" []) ++
    cbWritesOf demo2Cb1 ++ cbWritesOf demo2Cb2

/-- Result of the first demo callback delivery, unwrapped. -/
def demoRes1 : CbResult :=
  match demoCb1 with
  | .ok r => r
  | .error _ => ⟨[], "", [], [], [], false, false, false⟩

/-- Oracle in which the asset download fails and everything else is healthy. -/
def orcFail : CallbackOracle := ⟨false, true, true, true, true, true, true⟩

/-- Result of the demo callback under the failing oracle, unwrapped. -/
def demoResFail : CbResult :=
  match video_callback demoPayload demoStore1 orcFail with
  | .ok r => r
  | .error _ => ⟨[], "", [], [], [], false, false, false⟩

/-! ## Registry lookup lemmas -/

/-- Reading a key immediately after writing it yields the written value. -/
theorem rget_rset_self (st : Store) (k v : String) :
    rget (rset st k v) k = some v := by
  simp [rget, rset, List.find?]

/-! ## Claims -/

/-- C1 (amended): within any single invocation, the registry status writes
are forward-only with no terminal-to-non-terminal step: a `video_callback`
invocation writes one of `[]`, `[PROCESSING, FAILED]` (the COMPLETED write
is unreachable in video.py because the upload step's `TypeError` always
diverts to the except block), a `video2_callback` invocation one of `[]`,
`[PROCESSING, FAILED]`, `[PROCESSING, COMPLETED]`, and the generation
requesters write exactly `[QUEUED]`. (The status-query endpoints contain no
registry write at all; the original claim fails only across a duplicate
delivery of a completion notice, see the counterexample.) -/
theorem statusWrites_forward_per_invocation :
    (∀ p st orc r, video_callback p st orc = .ok r →
        (r.writes = [] ∨ r.writes = ["PROCESSING", "FAILED"]) ∧
        noTerminalRegression r.writes = true) ∧
    (∀ p st orc r, video2_callback p st orc = .ok r →
        (r.writes = [] ∨ r.writes = ["PROCESSING", "FAILED"] ∨
          r.writes = ["PROCESSING", "COMPLETED"]) ∧
        noTerminalRegression r.writes = true) ∧
    (∀ resp u pr st g, generate_video resp u pr st = .ok g →
        g.writes = ["QUEUED"]) ∧
    (∀ resp u pr st g, generate_video_v2 resp u pr st = .ok g →
        g.writes = ["QUEUED"]) := by
  refine ⟨?_, ?_, ?_, ?_⟩
  · intro p st orc r h
    unfold video_callback at h
    cases he : firstResultUrl (cbData p) <;> rw [he] at h
    · exact absurd h (by simp)
    · rename_i u
      cases hw : !truthy (cbData p).taskId || !truthy u <;>
        simp only [hw, Bool.false_eq_true, eq_self_iff_true, if_true, if_false] at h
      · cases ht : !truthy (rget (rset st (statusKey (tidOf p)) "PROCESSING")
            (userKey (tidOf p))) <;>
          simp only [ht, Bool.false_eq_true, eq_self_iff_true, if_true, if_false] at h
        · cases h; exact ⟨Or.inr rfl, rfl⟩
        · cases h; exact ⟨Or.inr rfl, rfl⟩
      · cases h; exact ⟨Or.inl rfl, rfl⟩
  · intro p st orc r h
    unfold video2_callback at h
    cases he : video2Url (cbData p) <;> rw [he] at h
    · exact absurd h (by simp)
    · rename_i u
      cases hw : !truthy (cbData p).taskId || !truthy u <;>
        simp only [hw, Bool.false_eq_true, eq_self_iff_true, if_true, if_false] at h
      · cases ht : !truthy (rget (rset st (statusKey (tidOf p)) "PROCESSING")
            (userKey (tidOf p))) <;>
          simp only [ht, Bool.false_eq_true, eq_self_iff_true, if_true, if_false] at h
        · cases hso : cbStepsOk orc <;>
            simp only [hso, Bool.false_eq_true, eq_self_iff_true, if_true, if_false] at h
          · cases h; exact ⟨Or.inr (Or.inl rfl), rfl⟩
          · cases h; exact ⟨Or.inr (Or.inr rfl), rfl⟩
        · cases h; exact ⟨Or.inr (Or.inl rfl), rfl⟩
      · cases h; exact ⟨Or.inl rfl, rfl⟩
  · intro resp u pr st g h
    unfold generate_video at h
    split at h
    · exact absurd h (by simp)
    · cases h; rfl
  · intro resp u pr st g h
    unfold generate_video_v2 at h
    split at h
    · exact absurd h (by simp)
    · cases h; rfl

/-- C1 witness: the demo delivery instantiates the per-invocation property. -/
theorem statusWrites_forward_per_invocation_witness :
    demoCb1 = Except.ok demoRes1 ∧
    ((demoRes1.writes = [] ∨ demoRes1.writes = ["PROCESSING", "FAILED"]) ∧
      noTerminalRegression demoRes1.writes = true) :=
  ⟨rfl, statusWrites_forward_per_invocation.1 demoPayload demoStore1 allOk demoRes1 rfl⟩

/-- C1 counterexample: a duplicate delivery of the same completion notice
to the v2 handler makes the stored status go `QUEUED, PROCESSING,
COMPLETED, PROCESSING, COMPLETED` — the fourth write moves the task from
the terminal COMPLETED back to the non-terminal PROCESSING; and on the v1
handler (whose upload step always raises, so every delivery terminates in
FAILED) the duplicate delivery likewise moves the terminal FAILED back to
PROCESSING. Both traces refute the claim that no sequence of registry
writes ever leaves a terminal state. -/
theorem statusWrites_duplicate_callback_regression :
    demo2Trace =
      ["QUEUED", "PROCESSING", "COMPLETED", "PROCESSING", "COMPLETED"] ∧
    noTerminalRegression demo2Trace = false ∧
    demoTrace = ["QUEUED", "PROCESSING", "FAILED", "PROCESSING", "FAILED"] ∧
    noTerminalRegression demoTrace = false := by
  refine ⟨rfl, by decide, rfl, by decide⟩

/-- C2: evaluating the handlers on the spec's own end-to-end scenario (owner
`u1`, task `abc123`, every external step succeeding) shows that the v2
handler enqueues a job whose `output_key` is `u1/abc123_processed.mp4` —
the suffix `_processed`, not a member of the closed variant set
`_v1`/`_v2` — while the v1 handler enqueues nothing at all (its upload
step's `TypeError` aborts the try block before the `lpush`); and the
repository's own listing logic reports the processed artifact as a second,
independent task `abc123_processed` instead of grouping it under
`abc123`. -/
theorem processed_output_key_job :
    cbJobsOf (video2_callback demoPayload demoStore2 allOk) =
      [⟨"u1/abc123.mp4", "u1/abc123_processed.mp4", none⟩] ∧
    cbJobsOf demoCb1 = [] ∧
    list_user_videos ("u1".toList)
        ["u1/abc123.mp4".toList, "u1/abc123_processed.mp4".toList] =
      ["abc123_processed".toList, "abc123".toList] := by
  refine ⟨rfl, rfl, by decide⟩

/-- C3 (amended): when the queue message carries no `variant` field the
worker defaults to the single variant `v1` and produces at most one
rendering (at `output_key`), never the full configured set. -/
theorem worker_missing_variant_default_v1 :
    ∀ (j : WorkerJobMsg) (orc : WorkerOracle), j.variant = none →
      (process_job j orc).variantUsed = "v1" ∧
      ((process_job j orc).uploads = [j.output_key] ∨
        (process_job j orc).uploads = []) ∧
      ((process_job j orc).variantsProduced = ["v1"] ∨
        (process_job j orc).variantsProduced = []) := by
  intro j orc h
  obtain ⟨d, c, f, u⟩ := orc
  cases d <;> cases f <;> cases u <;>
    simp [process_job, h]

/-- C3 witness: a concrete variant-less job under an all-success oracle. -/
theorem worker_missing_variant_default_v1_witness :
    (⟨"u1/t.mp4", "u1/t_processed.mp4", none⟩ : WorkerJobMsg).variant = none ∧
    ((process_job ⟨"u1/t.mp4", "u1/t_processed.mp4", none⟩
          ⟨true, some "caption", true, true⟩).variantUsed = "v1" ∧
      ((process_job ⟨"u1/t.mp4", "u1/t_processed.mp4", none⟩
            ⟨true, some "caption", true, true⟩).uploads = ["u1/t_processed.mp4"] ∨
        (process_job ⟨"u1/t.mp4", "u1/t_processed.mp4", none⟩
            ⟨true, some "caption", true, true⟩).uploads = []) ∧
      ((process_job ⟨"u1/t.mp4", "u1/t_processed.mp4", none⟩
            ⟨true, some "caption", true, true⟩).variantsProduced = ["v1"] ∨
        (process_job ⟨"u1/t.mp4", "u1/t_processed.mp4", none⟩
            ⟨true, some "caption", true, true⟩).variantsProduced = [])) :=
  ⟨rfl, worker_missing_variant_default_v1 ⟨"u1/t.mp4", "u1/t_processed.mp4", none⟩
      ⟨true, some "caption", true, true⟩ rfl⟩

/-- C3 counterexample: on a variant-less job whose every step succeeds, the
worker produces exactly the single rendering `v1`, while the configured
variant set (the `PROMPTS` keys of the caption tool) is `v1, v2` — so the
full configured set is not produced. -/
theorem worker_missing_variant_single_rendering :
    (process_job ⟨"u1/t.mp4", "u1/t_processed.mp4", none⟩
        ⟨true, some "caption", true, true⟩).variantsProduced = ["v1"] ∧
    configuredVariants = ["v1", "v2"] ∧
    (configuredVariants.all (fun v =>
        (process_job ⟨"u1/t.mp4", "u1/t_processed.mp4", none⟩
            ⟨true, some "caption", true, true⟩).variantsProduced.contains v)) =
      false := by
  refine ⟨rfl, rfl, by decide⟩

/-- C4 (amended): both generation requesters read only the nested
`data.taskId`; the result never depends on a top-level task id, and when the
nested field is falsy the request fails with the upstream-response error
even if a top-level id is present. -/
theorem generate_taskId_nested_only :
    (∀ d t1 t2 u pr st,
        generate_video ⟨d, t1⟩ u pr st = generate_video ⟨d, t2⟩ u pr st ∧
        generate_video_v2 ⟨d, t1⟩ u pr st = generate_video_v2 ⟨d, t2⟩ u pr st) ∧
    (∀ t u pr st,
        generate_video ⟨none, t⟩ u pr st = .error "KIE did not return taskId" ∧
        generate_video_v2 ⟨none, t⟩ u pr st =
          .error "KIE V2 did not return taskId") := by
  exact ⟨fun d t1 t2 u pr st => ⟨rfl, rfl⟩, fun t u pr st => ⟨rfl, rfl⟩⟩

/-- C4 counterexample: a response that carries the id `abc123` only at top
level (a truthy id under the second accepted encoding) is rejected with the
upstream-response error by both requesters, refuting the claim that either
encoding is accepted. -/
theorem generate_top_level_id_rejected :
    generate_video ⟨none, some "abc123"⟩ "u1" "sunset" [] =
      .error "KIE did not return taskId" ∧
    generate_video_v2 ⟨none, some "abc123"⟩ "u1" "sunset" [] =
      .error "KIE V2 did not return taskId" ∧
    truthy (GenResponse.topTaskId ⟨none, some "abc123"⟩) = true := by
  refine ⟨rfl, rfl, by decide⟩

/-- C8: the status query returns NOT_FOUND when no owner entry exists for
the task id, fails with HTTP 403 (disclosing no status — the `forbidden`
response carries none) when a recorded owner differs from the caller, and
returns the stored status only to the owner. -/
theorem get_status_authorization :
    (∀ task_id caller st, rget st (userKey task_id) = none →
        get_status task_id caller st = .body task_id "NOT_FOUND" ∧
        get_status_v2 task_id caller st = .body task_id "NOT_FOUND") ∧
    (∀ task_id caller st o, rget st (userKey task_id) = some o →
        o ≠ "" → o ≠ caller →
        get_status task_id caller st = .forbidden ∧
        get_status_v2 task_id caller st = .forbidden) ∧
    (∀ task_id caller st s, rget st (userKey task_id) = some caller →
        caller ≠ "" → rget st (statusKey task_id) = some s → s ≠ "" →
        get_status task_id caller st = .body task_id s ∧
        get_status_v2 task_id caller st = .body task_id s) := by
  refine ⟨?_, ?_, ?_⟩
  · intro tid caller st h
    constructor <;> simp [get_status, get_status_v2, h]
  · intro tid caller st o h ho hc
    constructor <;> simp [get_status, get_status_v2, h, ho, hc]
  · intro tid caller st s h hc hs hse
    constructor <;> simp [get_status, get_status_v2, h, hc, hs, hse]

/-- C8 witness: owner `u1` created task `t`; caller `u2` is rejected with
403 on a concrete registry state. -/
theorem get_status_authorization_witness :
    rget [("task_user:t", "u1"), ("task_status:t", "QUEUED")] (userKey "t") =
      some "u1" ∧
    ("u1" : String) ≠ "" ∧ ("u1" : String) ≠ "u2" ∧
    get_status "t" "u2" [("task_user:t", "u1"), ("task_status:t", "QUEUED")] =
      .forbidden :=
  ⟨rfl, by decide, by decide,
    (get_status_authorization.2.1 "t" "u2"
        [("task_user:t", "u1"), ("task_status:t", "QUEUED")] "u1" rfl
        (by decide) (by decide)).1⟩

/-- C7 (amended): a callback whose task id or extracted result URL is falsy
is acknowledged with the `waiting` response, leaves the registry exactly as
it was, enqueues no job and records nothing — except that a payload whose
`resultUrls` field is present but an empty array makes the extraction raise
(HTTP 500 instead of a success acknowledgement), still with no registry
write and no job. -/
theorem callback_incomplete_payload :
    (∀ p st orc u, firstResultUrl (cbData p) = .ok u →
        (!truthy (cbData p).taskId || !truthy u) = true →
        video_callback p st orc =
          .ok ⟨st, "waiting", [], [], [], false, false, false⟩) ∧
    (∀ p st orc u, video2Url (cbData p) = .ok u →
        (!truthy (cbData p).taskId || !truthy u) = true →
        video2_callback p st orc =
          .ok ⟨st, "waiting", [], [], [], false, false, false⟩) ∧
    (∀ p st orc, firstResultUrl (cbData p) = .error () →
        video_callback p st orc = .error ()) ∧
    (∀ p st orc, video2Url (cbData p) = .error () →
        video2_callback p st orc = .error ()) := by
  refine ⟨?_, ?_, ?_, ?_⟩
  · intro p st orc u h1 h2
    unfold video_callback
    rw [h1]
    simp only [h2, eq_self_iff_true, if_true]
  · intro p st orc u h1 h2
    unfold video2_callback
    rw [h1]
    simp only [h2, eq_self_iff_true, if_true]
  · intro p st orc h
    unfold video_callback
    rw [h]
  · intro p st orc h
    unfold video2_callback
    rw [h]

/-- C7 witness: a callback carrying a task id but no URL at all, against a
registry still holding QUEUED, is acknowledged with the registry unchanged
and no job enqueued. -/
theorem callback_incomplete_payload_witness :
    firstResultUrl (cbData ⟨some ⟨some "t", none, none⟩⟩) = .ok none ∧
    (!truthy (cbData ⟨some ⟨some "t", none, none⟩⟩).taskId || !truthy none) = true ∧
    video_callback ⟨some ⟨some "t", none, none⟩⟩ [("task_status:t", "QUEUED")] allOk =
      .ok ⟨[("task_status:t", "QUEUED")], "waiting", [], [], [], false, false, false⟩ :=
  ⟨rfl, by decide,
    callback_incomplete_payload.1 ⟨some ⟨some "t", none, none⟩⟩
      [("task_status:t", "QUEUED")] allOk none rfl (by decide)⟩

/-- C7 counterexample: a payload with a task id and `resultUrls` present but
empty makes both handlers raise (the modelled `IndexError` of
`resultUrls[0]`, surfaced as HTTP 500) rather than return the success
acknowledgement the claim requires. -/
theorem callback_empty_resultUrls_errors :
    video_callback ⟨some ⟨some "t", some ⟨some []⟩, none⟩⟩ [] allOk = .error () ∧
    video2_callback ⟨some ⟨some "t", some ⟨some []⟩, none⟩⟩ [] allOk = .error () :=
  ⟨rfl, rfl⟩

/-- C5 (amended): the v2 handler accepts both URL shapes — it proceeds
(first registry write PROCESSING) whenever a task id is present together
with either a truthy `data.info.resultUrls[0]` or a truthy `data.videoUrl`
fallback — but the v1 handler accepts only the primary shape: whenever the
primary value is falsy it returns the `waiting` acknowledgement untouched,
regardless of any `data.videoUrl` present in the payload. -/
theorem callback_url_extraction_shapes :
    (∀ p st orc u, firstResultUrl (cbData p) = .ok u →
        truthy (cbData p).taskId = true → truthy u = true →
        (cbWritesOf (video_callback p st orc)).head? = some "PROCESSING") ∧
    (∀ p st orc u, firstResultUrl (cbData p) = .ok u → truthy u = false →
        video_callback p st orc =
          .ok ⟨st, "waiting", [], [], [], false, false, false⟩) ∧
    (∀ p st orc u, firstResultUrl (cbData p) = .ok u →
        truthy (cbData p).taskId = true → truthy u = true →
        (cbWritesOf (video2_callback p st orc)).head? = some "PROCESSING") ∧
    (∀ p st orc u, firstResultUrl (cbData p) = .ok u → truthy u = false →
        truthy (cbData p).taskId = true → truthy (cbData p).videoUrl = true →
        (cbWritesOf (video2_callback p st orc)).head? = some "PROCESSING") := by
  refine ⟨?_, ?_, ?_, ?_⟩
  · intro p st orc u h1 h2 h3
    unfold video_callback
    rw [h1]
    simp only [h2, h3, Bool.not_true, Bool.or_self, Bool.false_eq_true, if_false]
    split
    · rfl
    · split <;> rfl
  · intro p st orc u h1 h2
    unfold video_callback
    rw [h1]
    simp only [h2, Bool.not_false, Bool.or_true, eq_self_iff_true, if_true]
  · intro p st orc u h1 h2 h3
    unfold video2_callback
    have h5 : video2Url (cbData p) = .ok u := by
      unfold video2Url
      rw [h1]
      simp [h3]
    rw [h5]
    simp only [h2, h3, Bool.not_true, Bool.or_self, Bool.false_eq_true, if_false]
    split
    · rfl
    · split <;> rfl
  · intro p st orc u h1 h2 h3 h4
    unfold video2_callback
    have h5 : video2Url (cbData p) = .ok (cbData p).videoUrl := by
      unfold video2Url
      rw [h1]
      simp [h2]
    rw [h5]
    simp only [h3, h4, Bool.not_true, Bool.or_self, Bool.false_eq_true, if_false]
    split
    · rfl
    · split <;> rfl

/-- C5 witness: the primary-shape demo callback makes the v1 handler
proceed. -/
theorem callback_url_extraction_shapes_witness :
    firstResultUrl (cbData demoPayload) = .ok (some "http://x/video.mp4") ∧
    truthy (cbData demoPayload).taskId = true ∧
    truthy (some "http://x/video.mp4") = true ∧
    (cbWritesOf (video_callback demoPayload demoStore1 allOk)).head? =
      some "PROCESSING" :=
  ⟨rfl, by decide, by decide,
    callback_url_extraction_shapes.1 demoPayload demoStore1 allOk
      (some "http://x/video.mp4") rfl (by decide) (by decide)⟩

/-- C5 counterexample: the same fallback-only payload (task id `t`, no
`info`, URL only under `data.videoUrl`) is treated as incomplete by the v1
handler (`waiting`, no processing) while the v2 handler proceeds — refuting
the claim that the Callback Handler (both files) accepts both shapes. -/
theorem callback_v1_ignores_videoUrl_fallback :
    video_callback ⟨some ⟨some "t", none, some "http://x/video.mp4"⟩⟩ [] allOk =
      .ok ⟨[], "waiting", [], [], [], false, false, false⟩ ∧
    truthy (cbData ⟨some ⟨some "t", none, some "http://x/video.mp4"⟩⟩).videoUrl =
      true ∧
    (cbWritesOf (video2_callback ⟨some ⟨some "t", none, some "http://x/video.mp4"⟩⟩
        [("task_user:t", "u1")] allOk)).head? = some "PROCESSING" := by
  refine ⟨rfl, by decide, rfl⟩

/-- C6: if any of the download/thumbnail/upload/metadata/enqueue/log steps
fails, the handler writes FAILED as the final status, acknowledges with the
normal success response, records a FAILED operation-log entry exactly when
the log collaborator is healthy (its failure changes nothing else about the
outcome, as the conclusions hold for either value of `logOk`), and the two
temporary files are created and removed; moreover on every exit path of
both handlers no temporary file is left behind. -/
theorem callback_failure_handling :
    (∀ p st orc r, video_callback p st orc = .ok r → r.msg = "success" →
        cbStepsOk orc = false →
        r.writes = ["PROCESSING", "FAILED"] ∧
        rget r.store (statusKey (tidOf p)) = some "FAILED" ∧
        (orc.logOk = true → r.logs = [("VIDEO_GENERATE", "FAILED")]) ∧
        (orc.logOk = false → r.logs = []) ∧
        r.tmpCreated = true ∧ r.tmpVideoLeft = false ∧ r.tmpThumbLeft = false) ∧
    (∀ p st orc r, video2_callback p st orc = .ok r → r.msg = "success" →
        cbStepsOk orc = false →
        r.writes = ["PROCESSING", "FAILED"] ∧
        rget r.store (statusKey (tidOf p)) = some "FAILED" ∧
        (orc.logOk = true → r.logs = [("VIDEO_GENERATE_V2", "FAILED")]) ∧
        (orc.logOk = false → r.logs = []) ∧
        r.tmpCreated = true ∧ r.tmpVideoLeft = false ∧ r.tmpThumbLeft = false) ∧
    (∀ p st orc r, video_callback p st orc = .ok r →
        r.tmpVideoLeft = false ∧ r.tmpThumbLeft = false) ∧
    (∀ p st orc r, video2_callback p st orc = .ok r →
        r.tmpVideoLeft = false ∧ r.tmpThumbLeft = false) := by
  refine ⟨?_, ?_, ?_, ?_⟩
  · intro p st orc r h hmsg hsteps
    unfold video_callback at h
    cases he : firstResultUrl (cbData p) <;> rw [he] at h
    · exact absurd h (by simp)
    · rename_i u
      cases hw : !truthy (cbData p).taskId || !truthy u <;>
        simp only [hw, Bool.false_eq_true, eq_self_iff_true, if_true, if_false] at h
      · cases ht : !truthy (rget (rset st (statusKey (tidOf p)) "PROCESSING")
            (userKey (tidOf p))) <;>
          simp only [ht, Bool.false_eq_true, eq_self_iff_true, if_true, if_false] at h
        · cases h
          exact ⟨rfl, rget_rset_self _ _ _, fun hl => by simp [hl],
            fun hl => by simp [hl], rfl, rfl, rfl⟩
        · cases h; simp at hmsg
      · cases h; simp at hmsg
  · intro p st orc r h hmsg hsteps
    unfold video2_callback at h
    cases he : video2Url (cbData p) <;> rw [he] at h
    · exact absurd h (by simp)
    · rename_i u
      cases hw : !truthy (cbData p).taskId || !truthy u <;>
        simp only [hw, Bool.false_eq_true, eq_self_iff_true, if_true, if_false] at h
      · cases ht : !truthy (rget (rset st (statusKey (tidOf p)) "PROCESSING")
            (userKey (tidOf p))) <;>
          simp only [ht, Bool.false_eq_true, eq_self_iff_true, if_true, if_false] at h
        · cases hso : cbStepsOk orc <;>
            simp only [hso, Bool.false_eq_true, eq_self_iff_true, if_true, if_false] at h
          · cases h
            exact ⟨rfl, rget_rset_self _ _ _, fun hl => by simp [hl],
              fun hl => by simp [hl], rfl, rfl, rfl⟩
          · simp [hso] at hsteps
        · cases h; simp at hmsg
      · cases h; simp at hmsg
  · intro p st orc r h
    unfold video_callback at h
    cases he : firstResultUrl (cbData p) <;> rw [he] at h
    · exact absurd h (by simp)
    · rename_i u
      cases hw : !truthy (cbData p).taskId || !truthy u <;>
        simp only [hw, Bool.false_eq_true, eq_self_iff_true, if_true, if_false] at h
      · cases ht : !truthy (rget (rset st (statusKey (tidOf p)) "PROCESSING")
            (userKey (tidOf p))) <;>
          simp only [ht, Bool.false_eq_true, eq_self_iff_true, if_true, if_false] at h
        · cases h; exact ⟨rfl, rfl⟩
        · cases h; exact ⟨rfl, rfl⟩
      · cases h; exact ⟨rfl, rfl⟩
  · intro p st orc r h
    unfold video2_callback at h
    cases he : video2Url (cbData p) <;> rw [he] at h
    · exact absurd h (by simp)
    · rename_i u
      cases hw : !truthy (cbData p).taskId || !truthy u <;>
        simp only [hw, Bool.false_eq_true, eq_self_iff_true, if_true, if_false] at h
      · cases ht : !truthy (rget (rset st (statusKey (tidOf p)) "PROCESSING")
            (userKey (tidOf p))) <;>
          simp only [ht, Bool.false_eq_true, eq_self_iff_true, if_true, if_false] at h
        · cases hso : cbStepsOk orc <;>
            simp only [hso, Bool.false_eq_true, eq_self_iff_true, if_true, if_false] at h
          · cases h; exact ⟨rfl, rfl⟩
          · cases h; exact ⟨rfl, rfl⟩
        · cases h; exact ⟨rfl, rfl⟩
      · cases h; exact ⟨rfl, rfl⟩

/-- C6 witness: the demo callback with a failing download step. -/
theorem callback_failure_handling_witness :
    video_callback demoPayload demoStore1 orcFail = .ok demoResFail ∧
    demoResFail.msg = "success" ∧ cbStepsOk orcFail = false ∧
    (demoResFail.writes = ["PROCESSING", "FAILED"] ∧
      rget demoResFail.store (statusKey (tidOf demoPayload)) = some "FAILED" ∧
      (orcFail.logOk = true → demoResFail.logs = [("VIDEO_GENERATE", "FAILED")]) ∧
      (orcFail.logOk = false → demoResFail.logs = []) ∧
      demoResFail.tmpCreated = true ∧ demoResFail.tmpVideoLeft = false ∧
      demoResFail.tmpThumbLeft = false) :=
  ⟨rfl, rfl, rfl,
    callback_failure_handling.1 demoPayload demoStore1 orcFail demoResFail
      rfl rfl rfl⟩

/-- C10: when the owner entry exists and matches the caller but the status
entry is absent, both status endpoints return the literal status string
UNKNOWN (not NOT_FOUND and not an error). -/
theorem get_status_unknown_when_status_missing :
    ∀ task_id caller st, rget st (userKey task_id) = some caller →
      caller ≠ "" → rget st (statusKey task_id) = none →
      get_status task_id caller st = .body task_id "UNKNOWN" ∧
      get_status_v2 task_id caller st = .body task_id "UNKNOWN" := by
  intro tid caller st h hc hs
  constructor <;> simp [get_status, get_status_v2, h, hc, hs]

/-- C10 witness: a registry holding only the owner entry for task `t`. -/
theorem get_status_unknown_when_status_missing_witness :
    rget [("task_user:t", "u1")] (userKey "t") = some "u1" ∧
    ("u1" : String) ≠ "" ∧
    rget [("task_user:t", "u1")] (statusKey "t") = none ∧
    get_status "t" "u1" [("task_user:t", "u1")] = .body "t" "UNKNOWN" :=
  ⟨rfl, by decide, rfl,
    (get_status_unknown_when_status_missing "t" "u1" [("task_user:t", "u1")]
        rfl (by decide) rfl).1⟩

/-! ## Character-level lemmas for the key scheme -/

theorem takeWhile_append_of_all (p : Char → Bool) :
    ∀ (a b : List Char), (∀ x ∈ a, p x = true) →
      (a ++ b).takeWhile p = a ++ b.takeWhile p
  | [], b, _ => rfl
  | c :: a, b, h => by
    have hc : p c = true := h c (List.mem_cons_self c a)
    simp only [List.cons_append, List.takeWhile_cons, hc, if_true]
    rw [takeWhile_append_of_all p a b (fun x hx => h x (List.mem_cons_of_mem c hx))]

theorem dropWhile_append_of_all (p : Char → Bool) :
    ∀ (a b : List Char), (∀ x ∈ a, p x = true) →
      (a ++ b).dropWhile p = b.dropWhile p
  | [], b, _ => rfl
  | c :: a, b, h => by
    have hc : p c = true := h c (List.mem_cons_self c a)
    simp only [List.cons_append, List.dropWhile_cons, hc, if_true]
    exact dropWhile_append_of_all p a b (fun x hx => h x (List.mem_cons_of_mem c hx))

/-- Members of a slash-free filename satisfy the scan predicate of
`lastSegment` / `ownerOfKey`. -/
theorem mem_reverse_slashFree (fn : List Char)
    (h : fn.all (fun c => !(c == '/')) = true) :
    ∀ x ∈ fn.reverse, (!(x == '/')) = true := by
  intro x hx
  exact List.all_eq_true.mp h x (List.mem_reverse.mp hx)

/-- `split("/")[-1]` of `owner ++ "/" ++ filename` recovers the slash-free
filename. -/
theorem lastSegment_append (o fn : List Char)
    (h : fn.all (fun c => !(c == '/')) = true) :
    lastSegment (o ++ '/' :: fn) = fn := by
  unfold lastSegment
  have : (o ++ '/' :: fn).reverse = fn.reverse ++ '/' :: o.reverse := by
    simp
  rw [this, takeWhile_append_of_all _ _ _ (mem_reverse_slashFree fn h)]
  simp [List.takeWhile_cons]

/-- The owner part of `owner ++ "/" ++ filename` with a slash-free filename. -/
theorem ownerOfKey_append (o fn : List Char)
    (h : fn.all (fun c => !(c == '/')) = true) :
    ownerOfKey (o ++ '/' :: fn) = o := by
  unfold ownerOfKey
  have : (o ++ '/' :: fn).reverse = fn.reverse ++ '/' :: o.reverse := by
    simp
  rw [this, dropWhile_append_of_all _ _ _ (mem_reverse_slashFree fn h)]
  simp [List.dropWhile_cons]

/-- Removing the `".mp4"` occurrences of `t ++ ".mp4"` gives back `t` when
`t` itself contains no occurrence. -/
theorem stripMp4All_append : ∀ (t : List Char), hasMp4 t = false →
    stripMp4All (t ++ mp4Chars) = t
  | [], _ => rfl
  | [c1], _ => by
    show stripMp4All (c1 :: '.' :: 'm' :: 'p' :: '4' :: []) = [c1]
    simp only [stripMp4All]
    rw [if_neg]
    · rfl
    · simp
  | [c1, c2], _ => by
    show stripMp4All (c1 :: c2 :: '.' :: 'm' :: 'p' :: '4' :: []) = [c1, c2]
    simp only [stripMp4All]
    rw [if_neg, if_neg]
    · rfl
    · simp
    · simp
  | [c1, c2, c3], _ => by
    show stripMp4All (c1 :: c2 :: c3 :: '.' :: 'm' :: 'p' :: '4' :: []) =
      [c1, c2, c3]
    simp only [stripMp4All]
    rw [if_neg, if_neg, if_neg]
    · rfl
    · simp
    · simp
    · simp
  | c1 :: c2 :: c3 :: c4 :: rest, h => by
    have hsplit := h
    unfold hasMp4 at hsplit
    rw [Bool.or_eq_false_iff] at hsplit
    show stripMp4All (c1 :: c2 :: c3 :: c4 :: (rest ++ mp4Chars)) =
      c1 :: c2 :: c3 :: c4 :: rest
    simp only [stripMp4All]
    rw [if_neg]
    · rw [show c2 :: c3 :: c4 :: (rest ++ mp4Chars) =
          (c2 :: c3 :: c4 :: rest) ++ mp4Chars from rfl,
        stripMp4All_append (c2 :: c3 :: c4 :: rest) hsplit.2]
    · intro hc
      exact absurd (hsplit.1.symm.trans hc) (by simp)

/-- Appending `"_v" ++ d` (for any digit character `d`) cannot create a
`".mp4"` occurrence. -/
theorem hasMp4_append_uv : ∀ (t : List Char) (d : Char), hasMp4 t = false →
    hasMp4 (t ++ ['_', 'v', d]) = false
  | [], d, _ => rfl
  | [c1], d, _ => by
    show hasMp4 (c1 :: '_' :: 'v' :: d :: []) = false
    simp only [hasMp4]
    rw [show (('_' : Char) == 'm') = false from by decide]
    simp
  | [c1, c2], d, _ => by
    show hasMp4 (c1 :: c2 :: '_' :: 'v' :: d :: []) = false
    simp only [hasMp4]
    rw [show (('_' : Char) == 'p') = false from by decide,
      show (('_' : Char) == 'm') = false from by decide]
    simp
  | [c1, c2, c3], d, _ => by
    show hasMp4 (c1 :: c2 :: c3 :: '_' :: 'v' :: d :: []) = false
    simp only [hasMp4]
    rw [show (('_' : Char) == '4') = false from by decide,
      show (('_' : Char) == 'p') = false from by decide,
      show (('_' : Char) == 'm') = false from by decide]
    simp
  | c1 :: c2 :: c3 :: c4 :: rest, d, h => by
    have hsplit := h
    unfold hasMp4 at hsplit
    rw [Bool.or_eq_false_iff] at hsplit
    show hasMp4 (c1 :: c2 :: c3 :: c4 :: (rest ++ ['_', 'v', d])) = false
    unfold hasMp4
    rw [Bool.or_eq_false_iff]
    refine ⟨hsplit.1, ?_⟩
    exact hasMp4_append_uv (c2 :: c3 :: c4 :: rest) d hsplit.2

/-- `endswith` sees a freshly appended three-character suffix. -/
theorem endsWith3_append (a b c : Char) (t : List Char) :
    endsWith3 a b c (t ++ [a, b, c]) = true := by
  unfold endsWith3
  have : (t ++ [a, b, c]).reverse = c :: b :: a :: t.reverse := by simp
  rw [this]
  simp

/-- `endswith` rejects an appended three-character suffix whose last
character differs. -/
theorem endsWith3_append_ne (a b c z : Char) (t : List Char)
    (h : (z == c) = false) :
    endsWith3 a b c (t ++ [a, b, z]) = false := by
  unfold endsWith3
  have : (t ++ [a, b, z]).reverse = z :: b :: a :: t.reverse := by simp
  rw [this]
  simp [h]

/-- `rsplit("_", 1)[0]` of `t ++ "_v" ++ d` recovers `t` (the appended
underscore is the last one). -/
theorem rsplitUnderscoreHead_append (t : List Char) (d : Char)
    (hd : (d == '_') = false) :
    rsplitUnderscoreHead (t ++ ['_', 'v', d]) = t := by
  unfold rsplitUnderscoreHead
  have : (t ++ ['_', 'v', d]).reverse = d :: 'v' :: '_' :: t.reverse := by simp
  rw [this]
  simp only [List.dropWhile_cons, hd]
  rw [show (('v' : Char) == '_') = false from by decide,
    show (('_' : Char) == '_') = true from by decide]
  simp

/-- C9 (amended): for every owner and every variant in the configured set
(`v1`, `v2`, and the no-variant case), the storage key produced by
`upload_video`'s naming scheme round-trips through the parsing the listing
logic performs — owner, base task id and variant are all recovered —
provided the base task id is slash-free, contains no `".mp4"` occurrence,
and does not itself end in `_v1`/`_v2`; and the spec's listing example
(`u1/t1.mp4`, `u1/t1_v1.mp4`, `u1/t2.mp4`) yields exactly the two logical
entries `t2, t1`. (Without the suffix proviso the round-trip fails, see the
counterexample.) -/
theorem key_scheme_roundtrip_amended :
    ∀ (o t : List Char) (v : Option (List Char)),
      (v = none ∨ v = some ['v', '1'] ∨ v = some ['v', '2']) →
      t.all (fun c => !(c == '/')) = true →
      hasMp4 t = false →
      endsWith3 '_' 'v' '1' t = false →
      endsWith3 '_' 'v' '2' t = false →
      ownerOfKey (videoKey o t v) = o ∧
      taskIdOfKey (videoKey o t v) = t ∧
      variantOfKey (videoKey o t v) = v ∧
      list_user_videos ("u1".toList)
          ["u1/t1.mp4".toList, "u1/t1_v1.mp4".toList, "u1/t2.mp4".toList] =
        ["t2".toList, "t1".toList] := by
  intro o t v hv hslash hmp4 he1 he2
  rcases hv with rfl | rfl | rfl
  · have hkey : videoKey o t none = o ++ '/' :: (t ++ mp4Chars) := by
      simp [videoKey]
    have hfn : (t ++ mp4Chars).all (fun c => !(c == '/')) = true := by
      rw [List.all_append, hslash]
      decide
    refine ⟨?_, ?_, ?_, by decide⟩
    · rw [hkey]; exact ownerOfKey_append o _ hfn
    · rw [hkey]
      unfold taskIdOfKey
      rw [lastSegment_append o _ hfn, stripMp4All_append t hmp4]
      unfold taskIdOfBase
      rw [he1, he2]
      simp
    · rw [hkey]
      unfold variantOfKey
      rw [lastSegment_append o _ hfn, stripMp4All_append t hmp4]
      simp only [he1, he2, Bool.false_eq_true, if_false]
  · have hkey : videoKey o t (some ['v', '1']) =
        o ++ '/' :: ((t ++ ['_', 'v', '1']) ++ mp4Chars) := by
      simp [videoKey]
    have hmp4v : hasMp4 (t ++ ['_', 'v', '1']) = false :=
      hasMp4_append_uv t '1' hmp4
    have hfn : ((t ++ ['_', 'v', '1']) ++ mp4Chars).all
        (fun c => !(c == '/')) = true := by
      rw [List.all_append, List.all_append, hslash]
      decide
    refine ⟨?_, ?_, ?_, by decide⟩
    · rw [hkey]; exact ownerOfKey_append o _ hfn
    · rw [hkey]
      unfold taskIdOfKey
      rw [lastSegment_append o _ hfn, stripMp4All_append _ hmp4v]
      unfold taskIdOfBase
      rw [endsWith3_append '_' 'v' '1' t]
      simp only [Bool.true_or, if_true]
      exact rsplitUnderscoreHead_append t '1' (by decide)
    · rw [hkey]
      unfold variantOfKey
      rw [lastSegment_append o _ hfn, stripMp4All_append _ hmp4v]
      simp only [endsWith3_append '_' 'v' '1' t, eq_self_iff_true, if_true]
  · have hkey : videoKey o t (some ['v', '2']) =
        o ++ '/' :: ((t ++ ['_', 'v', '2']) ++ mp4Chars) := by
      simp [videoKey]
    have hmp4v : hasMp4 (t ++ ['_', 'v', '2']) = false :=
      hasMp4_append_uv t '2' hmp4
    have hfn : ((t ++ ['_', 'v', '2']) ++ mp4Chars).all
        (fun c => !(c == '/')) = true := by
      rw [List.all_append, List.all_append, hslash]
      decide
    refine ⟨?_, ?_, ?_, by decide⟩
    · rw [hkey]; exact ownerOfKey_append o _ hfn
    · rw [hkey]
      unfold taskIdOfKey
      rw [lastSegment_append o _ hfn, stripMp4All_append _ hmp4v]
      unfold taskIdOfBase
      rw [endsWith3_append '_' 'v' '2' t,
        endsWith3_append_ne '_' 'v' '1' '2' t (by decide)]
      simp only [Bool.false_or, Bool.or_true, if_true]
      exact rsplitUnderscoreHead_append t '2' (by decide)
    · rw [hkey]
      unfold variantOfKey
      rw [lastSegment_append o _ hfn, stripMp4All_append _ hmp4v]
      simp only [endsWith3_append '_' 'v' '2' t,
        endsWith3_append_ne '_' 'v' '1' '2' t (by decide),
        Bool.false_eq_true, if_false, eq_self_iff_true, if_true]

/-- C9 witness: the round-trip at owner `u1`, task `t1`, variant `v1`. -/
theorem key_scheme_roundtrip_amended_witness :
    ("t1".toList.all (fun c => !(c == '/')) = true) ∧
    hasMp4 "t1".toList = false ∧
    endsWith3 '_' 'v' '1' "t1".toList = false ∧
    endsWith3 '_' 'v' '2' "t1".toList = false ∧
    (ownerOfKey (videoKey "u1".toList "t1".toList (some ['v', '1'])) =
        "u1".toList ∧
      taskIdOfKey (videoKey "u1".toList "t1".toList (some ['v', '1'])) =
        "t1".toList ∧
      variantOfKey (videoKey "u1".toList "t1".toList (some ['v', '1'])) =
        some ['v', '1'] ∧
      list_user_videos ("u1".toList)
          ["u1/t1.mp4".toList, "u1/t1_v1.mp4".toList, "u1/t2.mp4".toList] =
        ["t2".toList, "t1".toList]) :=
  ⟨by decide, by decide, by decide, by decide,
    key_scheme_roundtrip_amended "u1".toList "t1".toList (some ['v', '1'])
      (Or.inr (Or.inl rfl)) (by decide) (by decide) (by decide) (by decide)⟩

/-- C9 counterexample: for owner `u1` and the legitimate task id `t_v1`
stored with no variant, the key `u1/t_v1.mp4` is parsed back by the listing
logic as task `t` with variant `v1` — the original task id is not
recovered, refuting the unconditional round-trip claim. -/
theorem key_scheme_roundtrip_ambiguous :
    videoKey "u1".toList "t_v1".toList none = "u1/t_v1.mp4".toList ∧
    taskIdOfKey (videoKey "u1".toList "t_v1".toList none) = "t".toList ∧
    "t".toList ≠ "t_v1".toList ∧
    variantOfKey (videoKey "u1".toList "t_v1".toList none) = some ['v', '1'] := by
  refine ⟨by decide, by decide, by decide, by decide⟩

end VideoService
